import Mathlib

/-!
Verification of the JWT-minting core of the natsjwt terraform provider.

The development shallowly embeds the provider's Go code:

* `encodeDeterministic` (internal/provider/jwt_helper.go) — the deterministic
  signing pipeline built on top of the external `nats-io/jwt/v2` library;
* `buildAccountClaims`, `applySystemAccountDefaults`, the operator / user /
  system-account data-source `Read` flows;
* the `seedTypeValidator` schema validator;
* the config-helper bundle assembler.

External collaborators (the `nkeys` and `jwt/v2` libraries, `json.Marshal`,
`time.ParseDuration`) are modelled through their consumed contracts: a key
pair is a record carrying its seed, public key and a deterministic signing
function; the library's `Claims.Encode` is modelled by `libEncode`, which
performs the role-prefix validity checks and stamps the wall-clock time and
the request identifier — both supplied explicitly through an `Env` record so
that their influence on the output can be reasoned about.  Signed tokens are
kept in structured form (`SignedToken` carries both the rendered text and the
claims serialized into its payload); this is faithful because base64url and
JSON serialization are injective and decodable, so the string and structured
forms are in bijection.
-/

/-- Role tag of an NKey, encoded in the first character of a public key
(`O`/`A`/`U`/`N`) and in the seed's two-character recipe (`SO`/`SA`/`SU`). -/
inductive KeyRole where
  | operator
  | account
  | user
  | server
deriving DecidableEq, Repr

/-- Model of `nkeys.KeyPair` as consumed by the provider: the seed string it
was parsed from, the derived public key, and the (deterministic) Ed25519
signing function.  `publicKey` is a pure function of `seed` for real key
pairs; where a proof needs that invariant it is taken as a hypothesis. -/
structure KeyPair where
  seed : String
  pub : String
  sign : String → String

/-- Role of a public key, read off its first character the way
`nkeys.IsValidPublicOperatorKey` and friends classify keys. -/
def roleOfPublicKey (s : String) : Option KeyRole :=
  match s.data with
  | 'O' :: _ => some KeyRole.operator
  | 'A' :: _ => some KeyRole.account
  | 'U' :: _ => some KeyRole.user
  | 'N' :: _ => some KeyRole.server
  | _ => none

/-- Common claim fields (`jwt.ClaimsData`): subject, issuer, name, the three
temporal fields, and the `jti` identifier. -/
structure ClaimsData where
  subject : String
  issuer : String
  name : String
  issuedAt : Int
  expires : Int
  notBefore : Int
  id : String
deriving DecidableEq, Repr

/-- Publish/subscribe permission lists (`jwt.Permission`). -/
structure Permission where
  allow : List String
  deny : List String
deriving DecidableEq, Repr, Inhabited

/-- Response permission (`jwt.ResponsePermission`): max messages and TTL in
nanoseconds (`time.Duration`). -/
structure ResponsePermission where
  maxMsgs : Int
  expires : Int
deriving DecidableEq, Repr, Inhabited

/-- Daily time window (`jwt.TimeRange`), HH:MM:SS strings. -/
structure TimeRange where
  start : String
  stop : String
deriving DecidableEq, Repr, Inhabited

/-- JetStream limit record (`jwt.JetStreamLimits`). -/
structure JetStreamLimits where
  memoryStorage : Int
  diskStorage : Int
  streams : Int
  consumer : Int
  maxAckPending : Int
  memoryMaxStreamBytes : Int
  diskMaxStreamBytes : Int
  maxBytesRequired : Bool
deriving DecidableEq, Repr, Inhabited

/-- Zero value of `jwt.JetStreamLimits`, which is also the value
`jwt.NewAccountClaims` leaves in the single global limit record (JetStream
disabled sentinel). -/
def jsLimitsDefault : JetStreamLimits :=
  { memoryStorage := 0, diskStorage := 0, streams := 0, consumer := 0,
    maxAckPending := 0, memoryMaxStreamBytes := 0, diskMaxStreamBytes := 0,
    maxBytesRequired := false }

/-- Export type tag (`jwt.Service` / `jwt.Stream`). -/
inductive ExportKind where
  | service
  | stream
deriving DecidableEq, Repr, Inhabited

/-- Account export declaration (`jwt.Export`), restricted to the fields the
provider writes. -/
structure Export where
  name : String
  subject : String
  kind : ExportKind
  responseType : String
  accountTokenPosition : Nat
  description : String
  infoURL : String
deriving DecidableEq, Repr, Inhabited

/-- Message-trace config (`jwt.MsgTrace`). -/
structure MsgTrace where
  destination : String
  sampling : Int
deriving DecidableEq, Repr, Inhabited

/-- Operator-specific payload (`jwt.Operator`). -/
structure OperatorFields where
  signingKeys : List String
  accountServerURL : String
  operatorServiceURLs : List String
  systemAccount : String
  strictSigningKeyUsage : Bool
deriving DecidableEq, Repr

/-- Account-specific payload (`jwt.Account` with its `OperatorLimits`).  The
tiered JetStream limits are an association list standing for the Go map
`JetStreamTieredLimits`; insertion overwrites an existing key. -/
structure AccountFields where
  signingKeys : List String
  description : String
  infoURL : String
  subs : Int
  maxData : Int
  payload : Int
  imports : Int
  exports : Int
  wildcardExports : Bool
  disallowBearer : Bool
  conn : Int
  leafNodeConn : Int
  jsGlobal : JetStreamLimits
  jsTiered : List (String × JetStreamLimits)
  exportsList : List Export
  defaultPub : Permission
  defaultSub : Permission
  trace : Option MsgTrace
deriving DecidableEq, Repr, Inhabited

/-- User-specific payload (`jwt.User`). -/
structure UserFields where
  issuerAccount : String
  pubPerm : Permission
  subPerm : Permission
  resp : Option ResponsePermission
  subs : Int
  maxData : Int
  payload : Int
  bearerToken : Bool
  allowedConnectionTypes : List String
  src : List String
  times : List TimeRange
  locale : String
deriving DecidableEq, Repr, Inhabited

/-- Tagged union over the three claim payloads. -/
inductive ClaimPayload where
  | operator (o : OperatorFields)
  | account (a : AccountFields)
  | user (u : UserFields)
deriving DecidableEq, Repr

/-- Full claim set: common data, tags, and the `GenericFields` bookkeeping
(`Type`, `Version`) that the library's `Encode` stamps, plus the entity
payload. -/
structure Claims where
  cd : ClaimsData
  tags : List String
  claimType : String
  version : Nat
  payload : ClaimPayload
deriving DecidableEq, Repr

/-- Environment a call of the library's `Claims.Encode` runs in: the current
wall-clock time it stamps into `IssuedAt` and the `jti` identifier it
computes.  Modelling them as inputs makes the library's non-reproducibility
explicit. -/
structure Env where
  now : Int
  jti : String

/-- Claim-type string the library's `Encode` writes into `GenericFields`. -/
def claimTypeOf : ClaimPayload → String
  | ClaimPayload.operator _ => "operator"
  | ClaimPayload.account _ => "account"
  | ClaimPayload.user _ => "user"

/-- Issuer roles accepted by the library for each claim kind
(`ExpectedPrefixes` in `jwt/v2`). -/
def allowedIssuerRoles : ClaimPayload → List KeyRole
  | ClaimPayload.operator _ => [KeyRole.operator]
  | ClaimPayload.account _ => [KeyRole.account, KeyRole.operator]
  | ClaimPayload.user _ => [KeyRole.account]

/-- Subject-key validity check each `XClaims.Encode` performs before
encoding: the subject must be a public key of the entity's own role. -/
def validSubjectFor : ClaimPayload → String → Bool
  | ClaimPayload.operator _, s => roleOfPublicKey s = some KeyRole.operator
  | ClaimPayload.account _, s => roleOfPublicKey s = some KeyRole.account
  | ClaimPayload.user _, s => roleOfPublicKey s = some KeyRole.user

/-- Issuer-prefix check performed by `ClaimsData.encode` in the library. -/
def issuerAllowedFor (p : ClaimPayload) (pub : String) : Bool :=
  (allowedIssuerRoles p).any (fun r => roleOfPublicKey pub = some r)

/-- Contract of the external library's `Claims.Encode(kp)` as used for the
trial encode: it validates the subject and issuer roles, then (as a side
effect on the claim set) sets `Issuer` from the key pair, stamps `IssuedAt`
with the current time and `ID` with the computed identifier, and updates
`Type`/`Version`.  The returned token of the trial pass is discarded by the
caller, so only the updated claim state is modelled. -/
def libEncode (c : Claims) (kp : KeyPair) (env : Env) : Option Claims :=
  if validSubjectFor c.payload c.cd.subject && issuerAllowedFor c.payload kp.pub then
    some { c with
      cd := { c.cd with issuer := kp.pub, issuedAt := env.now, id := env.jti },
      claimType := claimTypeOf c.payload,
      version := 2 }
  else
    none

/-- Base64url alphabet (RFC 4648 §5), as used by Go's
`base64.RawURLEncoding`. -/
def b64Alphabet : List Char :=
  [ 'A', 'B', 'C', 'D', 'E', 'F', 'G', 'H', 'I', 'J', 'K', 'L', 'M',
    'N', 'O', 'P', 'Q', 'R', 'S', 'T', 'U', 'V', 'W', 'X', 'Y', 'Z',
    'a', 'b', 'c', 'd', 'e', 'f', 'g', 'h', 'i', 'j', 'k', 'l', 'm',
    'n', 'o', 'p', 'q', 'r', 's', 't', 'u', 'v', 'w', 'x', 'y', 'z',
    '0', '1', '2', '3', '4', '5', '6', '7', '8', '9', '-', '_' ]

/-- Character for a 6-bit group. -/
def b64CharOf (n : Nat) : Char := b64Alphabet.getD n 'A'

/-- Unpadded base64url of a byte list (Go `base64.RawURLEncoding.EncodeToString`). -/
def b64EncodeBytes : List UInt8 → List Char
  | [] => []
  | [a] =>
      [b64CharOf (a.toNat / 4), b64CharOf (a.toNat % 4 * 16)]
  | [a, b] =>
      [b64CharOf (a.toNat / 4), b64CharOf (a.toNat % 4 * 16 + b.toNat / 16),
       b64CharOf (b.toNat % 16 * 4)]
  | a :: b :: c :: rest =>
      b64CharOf (a.toNat / 4) :: b64CharOf (a.toNat % 4 * 16 + b.toNat / 16) ::
      b64CharOf (b.toNat % 16 * 4 + c.toNat / 64) :: b64CharOf (c.toNat % 64) ::
      b64EncodeBytes rest

/-- Base64url of the UTF-8 bytes of a string (the byte list is
`String.toUTF8` unfolded to its list form, `flatMap` of the per-character
UTF-8 encoder, so that it evaluates). -/
def b64url (s : String) : String :=
  String.mk (b64EncodeBytes (s.data.flatMap String.utf8EncodeChar))

/-- JSON text of a permission object, standing for `json.Marshal` on
`jwt.Permission`. -/
def jsonOfPermission (p : Permission) : String :=
  "\x7b\"allow\":[" ++ String.intercalate "," (p.allow.map (fun s => "\"" ++ s ++ "\"")) ++
  "],\"deny\":[" ++ String.intercalate "," (p.deny.map (fun s => "\"" ++ s ++ "\"")) ++ "]\x7d"

/-- JSON text of the entity payload, standing for `json.Marshal` of the
nested `nats` object of the claim types (field order fixed; `omitempty`
handling elided — the serializer only has to be a deterministic function of
the payload for the properties proved here). -/
def jsonOfPayload : ClaimPayload → String
  | ClaimPayload.operator o =>
      "\x7b\"signing_keys\":[" ++ String.intercalate "," o.signingKeys ++
      "],\"account_server_url\":\"" ++ o.accountServerURL ++
      "\",\"operator_service_urls\":[" ++ String.intercalate "," o.operatorServiceURLs ++
      "],\"system_account\":\"" ++ o.systemAccount ++
      "\",\"strict_signing_key_usage\":" ++ (if o.strictSigningKeyUsage then "true" else "false") ++ "\x7d"
  | ClaimPayload.account a =>
      "\x7b\"signing_keys\":[" ++ String.intercalate "," a.signingKeys ++
      "],\"description\":\"" ++ a.description ++
      "\",\"info_url\":\"" ++ a.infoURL ++
      "\",\"limits\":\x7b\"subs\":" ++ toString a.subs ++
      ",\"data\":" ++ toString a.maxData ++
      ",\"payload\":" ++ toString a.payload ++
      ",\"imports\":" ++ toString a.imports ++
      ",\"exports\":" ++ toString a.exports ++
      ",\"wildcards\":" ++ (if a.wildcardExports then "true" else "false") ++
      ",\"disallow_bearer\":" ++ (if a.disallowBearer then "true" else "false") ++
      ",\"conn\":" ++ toString a.conn ++
      ",\"leaf\":" ++ toString a.leafNodeConn ++
      ",\"mem_storage\":" ++ toString a.jsGlobal.memoryStorage ++
      ",\"disk_storage\":" ++ toString a.jsGlobal.diskStorage ++
      ",\"streams\":" ++ toString a.jsGlobal.streams ++
      ",\"consumer\":" ++ toString a.jsGlobal.consumer ++
      ",\"tiered_limits\":[" ++
        String.intercalate ","
          (a.jsTiered.map (fun t => "\"" ++ t.1 ++ "\":" ++ toString t.2.streams)) ++
      "]\x7d,\"exports\":[" ++
        String.intercalate "," (a.exportsList.map (fun e => "\"" ++ e.subject ++ "\"")) ++
      "],\"default_permissions\":\x7b\"pub\":" ++ jsonOfPermission a.defaultPub ++
      ",\"sub\":" ++ jsonOfPermission a.defaultSub ++ "\x7d\x7d"
  | ClaimPayload.user u =>
      "\x7b\"issuer_account\":\"" ++ u.issuerAccount ++
      "\",\"pub\":" ++ jsonOfPermission u.pubPerm ++
      ",\"sub\":" ++ jsonOfPermission u.subPerm ++
      ",\"resp\":" ++ (match u.resp with
        | none => "null"
        | some r => "\x7b\"max\":" ++ toString r.maxMsgs ++ ",\"ttl\":" ++ toString r.expires ++ "\x7d") ++
      ",\"subs\":" ++ toString u.subs ++
      ",\"data\":" ++ toString u.maxData ++
      ",\"payload\":" ++ toString u.payload ++
      ",\"bearer_token\":" ++ (if u.bearerToken then "true" else "false") ++
      ",\"allowed_connection_types\":[" ++ String.intercalate "," u.allowedConnectionTypes ++
      "],\"src\":[" ++ String.intercalate "," u.src ++
      "],\"times\":[" ++
        String.intercalate "," (u.times.map (fun t => "\x7b\"start\":\"" ++ t.start ++ "\",\"end\":\"" ++ t.stop ++ "\"\x7d")) ++
      "],\"times_location\":\"" ++ u.locale ++ "\"\x7d"

/-- JSON text of a full claim set, standing for `json.Marshal` on the claim
struct (the payload appears under the `nats` key, as in `jwt/v2`). -/
def jsonOfClaims (c : Claims) : String :=
  "\x7b\"jti\":\"" ++ c.cd.id ++
  "\",\"iat\":" ++ toString c.cd.issuedAt ++
  ",\"exp\":" ++ toString c.cd.expires ++
  ",\"nbf\":" ++ toString c.cd.notBefore ++
  ",\"iss\":\"" ++ c.cd.issuer ++
  "\",\"name\":\"" ++ c.cd.name ++
  "\",\"sub\":\"" ++ c.cd.subject ++
  "\",\"tags\":[" ++ String.intercalate "," c.tags ++
  "],\"nats\":\x7b\"type\":\"" ++ c.claimType ++
  "\",\"version\":" ++ toString c.version ++
  ",\"payload\":" ++ jsonOfPayload c.payload ++ "\x7d\x7d"

/-- JSON of the fixed JWT header built by `encodeDeterministic`
(`json.Marshal` on a Go map sorts the keys, hence `alg` before `typ`). -/
def jsonHeader : String := "\x7b\"alg\":\"ed25519-nkey\",\"typ\":\"JWT\"\x7d"

/-- Signed token: the rendered `header.payload.signature` text together with
the claim set serialized into the payload segment (the structured shadow of
the base64url/JSON payload, recoverable from the text by decoding). -/
structure SignedToken where
  text : String
  claims : Claims
deriving Repr

/-- Shallow embedding of `encodeDeterministic` (jwt_helper.go): record the
caller-intended `IssuedAt`, clear `ID`, build the fixed header, set the
issuer from the key pair, run the trial library encode (whose wall-clock /
identifier effects come from `env`), restore `IssuedAt` and `ID`, serialize
the payload, and sign `header.payload`. -/
def encodeDeterministic (claims : Claims) (kp : KeyPair) (env : Env) : Option SignedToken :=
  let issuedAt := claims.cd.issuedAt
  let c1 : Claims := { claims with cd := { claims.cd with id := "" } }
  let headerB64 := b64url jsonHeader
  let pub := kp.pub
  let c2 : Claims := { c1 with cd := { c1.cd with issuer := pub } }
  match libEncode c2 kp env with
  | none => none
  | some c3 =>
    let c4 : Claims := { c3 with cd := { c3.cd with issuedAt := issuedAt, id := "" } }
    let payloadB64 := b64url (jsonOfClaims c4)
    let toSign := headerB64 ++ "." ++ payloadB64
    let sigB64 := b64url (kp.sign toSign)
    some { text := toSign ++ "." ++ sigB64, claims := c4 }

/-- Decode of an account token (`jwt.DecodeAccountClaims`): succeeds exactly
when the payload is an account payload, returning the embedded claims. -/
def decodeAccountClaims (t : SignedToken) : Option Claims :=
  match t.claims.payload with
  | ClaimPayload.account _ => some t.claims
  | _ => none

/-- Decode of a user token (`jwt.DecodeUserClaims`). -/
def decodeUserClaims (t : SignedToken) : Option Claims :=
  match t.claims.payload with
  | ClaimPayload.user _ => some t.claims
  | _ => none

/-- Account payload of a decoded account token, for stating properties of
its limits and exports. -/
def accountFieldsOf (c : Claims) : Option AccountFields :=
  match c.payload with
  | ClaimPayload.account a => some a
  | _ => none

/-- User payload of a decoded user token. -/
def userFieldsOf (c : Claims) : Option UserFields :=
  match c.payload with
  | ClaimPayload.user u => some u
  | _ => none

/-- Terraform model of the `permissions` block of the user data source
(`UserPermissionsModel`); `none` is a null attribute. -/
structure UserPermissionsModel where
  pubAllow : Option (List String)
  pubDeny : Option (List String)
  subAllow : Option (List String)
  subDeny : Option (List String)
  respMaxMsgs : Option Int
  respTTL : Option String

/-- Terraform model of the user `limits` block (`UserLimitsModel`); `maxData`
is the `data` attribute. -/
structure UserLimitsModel where
  subs : Option Int
  maxData : Option Int
  payload : Option Int

/-- Terraform model of one `time_restrictions` entry (`TimeRangeModel`);
both attributes are required, hence non-null. -/
structure TimeRangeModel where
  start : String
  stop : String

/-- Terraform model of the user data source configuration
(`UserDataSourceModel`).  The `seed` and `account_seed` strings are carried
by the `KeyPair` arguments of `userRead` (their parsing is the external
`nkeys.FromSeed`). -/
structure UserDataSourceModel where
  name : String
  issuerAccount : Option String
  permissions : Option UserPermissionsModel
  limits : Option UserLimitsModel
  bearerToken : Option Bool
  allowedConnectionTypes : Option (List String)
  sourceNetworks : Option (List String)
  timeRestrictions : Option (List TimeRangeModel)
  locale : Option String
  tags : Option (List String)

/-- Model of `buildPermission`: Go only assigns the lists when non-empty,
which is indistinguishable from assigning them always (nil and empty slice
serialize alike). -/
def buildPermission (allow deny : List String) : Permission :=
  { allow := allow, deny := deny }

/-- Response permission assembled by `UserDataSource.Read`: built only when
`resp_max_msgs` or `resp_ttl` is set; a `resp_ttl` that fails
`time.ParseDuration` (the `pd` argument) is a hard error (`none`). -/
def buildUserResp (pd : String → Option Int) (p : UserPermissionsModel) :
    Option (Option ResponsePermission) :=
  if p.respMaxMsgs.isNone && p.respTTL.isNone then
    some none
  else
    match p.respTTL with
    | none => some (some { maxMsgs := p.respMaxMsgs.getD 0, expires := 0 })
    | some s =>
      match pd s with
      | none => none
      | some ttl => some (some { maxMsgs := p.respMaxMsgs.getD 0, expires := ttl })

/-- Claim construction of `UserDataSource.Read` (datasource_user.go): starts
from `jwt.NewUserClaims(userPub)` (temporal fields zero, connection limits
at the -1 no-limit sentinel) and copies each non-null attribute; null
user-limit fields are set to -1 explicitly, matching the constructor
default.  The schema exposes no `issued_at` / `expires` / `not_before`
attributes, so the temporal fields stay 0. -/
def buildUserClaims (pd : String → Option Int) (d : UserDataSourceModel)
    (userPub : String) : Option Claims :=
  match (match d.permissions with
         | none => some none
         | some p => buildUserResp pd p : Option (Option ResponsePermission)) with
  | none => none
  | some resp =>
    some {
      cd := { subject := userPub, issuer := "", name := d.name,
              issuedAt := 0, expires := 0, notBefore := 0, id := "" },
      tags := d.tags.getD [],
      claimType := "",
      version := 0,
      payload := ClaimPayload.user {
        issuerAccount := d.issuerAccount.getD "",
        pubPerm := (match d.permissions with
          | none => { allow := [], deny := [] }
          | some p => buildPermission (p.pubAllow.getD []) (p.pubDeny.getD [])),
        subPerm := (match d.permissions with
          | none => { allow := [], deny := [] }
          | some p => buildPermission (p.subAllow.getD []) (p.subDeny.getD [])),
        resp := resp,
        subs := (match d.limits with
          | none => -1
          | some l => l.subs.getD (-1)),
        maxData := (match d.limits with
          | none => -1
          | some l => l.maxData.getD (-1)),
        payload := (match d.limits with
          | none => -1
          | some l => l.payload.getD (-1)),
        bearerToken := d.bearerToken.getD false,
        allowedConnectionTypes := d.allowedConnectionTypes.getD [],
        src := d.sourceNetworks.getD [],
        times := (d.timeRestrictions.getD []).map
          (fun tr => { start := tr.start, stop := tr.stop }),
        locale := d.locale.getD "",
      } }

/-- Full user data-source `Read`: build the claims, then sign them with the
account key pair through the deterministic pipeline. -/
def userRead (pd : String → Option Int) (d : UserDataSourceModel)
    (userKP accountKP : KeyPair) (env : Env) : Option SignedToken :=
  match buildUserClaims pd d userKP.pub with
  | none => none
  | some c => encodeDeterministic c accountKP env

/-- Terraform model of the account `nats_limits` block (`NatsLimitsModel`). -/
structure NatsLimitsModel where
  subs : Option Int
  maxData : Option Int
  payload : Option Int

/-- Terraform model of the `account_limits` block (`AccountLimitsModel`). -/
structure AccountLimitsModel where
  imports : Option Int
  exports : Option Int
  wildcardExports : Option Bool
  disallowBearer : Option Bool
  conn : Option Int
  leafNodeConn : Option Int

/-- Terraform model of one `jetstream_limits` entry
(`JetStreamLimitsModel`). -/
structure JetStreamLimitsModel where
  tier : Option String
  memStorage : Option Int
  diskStorage : Option Int
  streams : Option Int
  consumer : Option Int
  maxAckPending : Option Int
  memMaxStreamBytes : Option Int
  diskMaxStreamBytes : Option Int
  maxBytesRequired : Option Bool

/-- Terraform model of the `default_permissions` block
(`DefaultPermissionsModel`). -/
structure DefaultPermissionsModel where
  pubAllow : Option (List String)
  pubDeny : Option (List String)
  subAllow : Option (List String)
  subDeny : Option (List String)

/-- Terraform model of the `trace` block (`TraceModel`). -/
structure TraceModel where
  destination : Option String
  sampling : Option Int

/-- Terraform model of the account (and system-account) data source
configuration (`AccountDataSourceModel`); the `seed` and `operator_seed`
strings are carried by the `KeyPair` arguments of `accountRead`. -/
structure AccountDataSourceModel where
  name : String
  signingKeys : Option (List String)
  issuedAt : Option Int
  expires : Option Int
  notBefore : Option Int
  description : Option String
  infoURL : Option String
  tags : Option (List String)
  natsLimits : Option NatsLimitsModel
  accountLimits : Option AccountLimitsModel
  jetstreamLimits : Option (List JetStreamLimitsModel)
  defaultPermissions : Option DefaultPermissionsModel
  trace : Option TraceModel

/-- Association-list upsert modelling assignment into a Go map: an existing
key is overwritten in place, a new key is appended. -/
def mapUpsert {α : Type} (m : List (String × α)) (k : String) (v : α) :
    List (String × α) :=
  match m with
  | [] => [(k, v)]
  | (k2, v2) :: rest =>
    if k2 = k then (k, v) :: rest else (k2, v2) :: mapUpsert rest k v

/-- Association-list lookup modelling Go map indexing. -/
def mapLookup {α : Type} (m : List (String × α)) (k : String) : Option α :=
  match m with
  | [] => none
  | (k2, v) :: rest => if k2 = k then some v else mapLookup rest k

/-- Limit record built from one `jetstream_limits` block, per-field null
defaulting as in `buildAccountClaims`: storage/byte fields default to 0,
`streams`/`consumer`/`max_ack_pending` default to -1. -/
def jsLimitsOfBlock (b : JetStreamLimitsModel) : JetStreamLimits :=
  { memoryStorage := b.memStorage.getD 0,
    diskStorage := b.diskStorage.getD 0,
    streams := b.streams.getD (-1),
    consumer := b.consumer.getD (-1),
    maxAckPending := b.maxAckPending.getD (-1),
    memoryMaxStreamBytes := b.memMaxStreamBytes.getD 0,
    diskMaxStreamBytes := b.diskMaxStreamBytes.getD 0,
    maxBytesRequired := b.maxBytesRequired.getD false }

/-- True when a block carries no tier label (`tier == "" || Tier.IsNull()`),
i.e. targets the single global limit record. -/
def isGlobalBlock (b : JetStreamLimitsModel) : Bool :=
  match b.tier with
  | none => true
  | some t => t = ""

/-- Sequential application of the `jetstream_limits` blocks: an unlabeled
block overwrites the global record, a labeled block upserts into the tier
map. -/
def applyJsBlocks (blocks : List JetStreamLimitsModel)
    (acc : JetStreamLimits × List (String × JetStreamLimits)) :
    JetStreamLimits × List (String × JetStreamLimits) :=
  match blocks with
  | [] => acc
  | b :: rest =>
    let limit := jsLimitsOfBlock b
    match b.tier with
    | none => applyJsBlocks rest (limit, acc.2)
    | some t =>
      if t = "" then applyJsBlocks rest (limit, acc.2)
      else applyJsBlocks rest (acc.1, mapUpsert acc.2 t limit)

/-- Claim construction of `buildAccountClaims` (datasource_user.go): starts
from `jwt.NewAccountClaims(pub)` (connection/account limits at the -1
no-limit sentinel, `wildcard_exports` true, global JetStream record zero,
tier map empty) and copies each non-null attribute, writing the constructor
defaults back when a block is present but a field is null. -/
def buildAccountClaims (d : AccountDataSourceModel) (accountPub : String) : Claims :=
  let js := applyJsBlocks (d.jetstreamLimits.getD []) (jsLimitsDefault, [])
  { cd := { subject := accountPub, issuer := "", name := d.name,
            issuedAt := d.issuedAt.getD 0,
            expires := d.expires.getD 0,
            notBefore := (match d.notBefore with
              | some v => v
              | none => d.issuedAt.getD 0),
            id := "" },
    tags := d.tags.getD [],
    claimType := "",
    version := 0,
    payload := ClaimPayload.account {
      signingKeys := d.signingKeys.getD [],
      description := d.description.getD "",
      infoURL := d.infoURL.getD "",
      subs := (match d.natsLimits with
        | none => -1
        | some nl => nl.subs.getD (-1)),
      maxData := (match d.natsLimits with
        | none => -1
        | some nl => nl.maxData.getD (-1)),
      payload := (match d.natsLimits with
        | none => -1
        | some nl => nl.payload.getD (-1)),
      imports := (match d.accountLimits with
        | none => -1
        | some al => al.imports.getD (-1)),
      exports := (match d.accountLimits with
        | none => -1
        | some al => al.exports.getD (-1)),
      wildcardExports := (match d.accountLimits with
        | none => true
        | some al => al.wildcardExports.getD true),
      disallowBearer := (match d.accountLimits with
        | none => false
        | some al => al.disallowBearer.getD false),
      conn := (match d.accountLimits with
        | none => -1
        | some al => al.conn.getD (-1)),
      leafNodeConn := (match d.accountLimits with
        | none => -1
        | some al => al.leafNodeConn.getD (-1)),
      jsGlobal := js.1,
      jsTiered := js.2,
      exportsList := [],
      defaultPub := (match d.defaultPermissions with
        | none => { allow := [], deny := [] }
        | some dp => buildPermission (dp.pubAllow.getD []) (dp.pubDeny.getD [])),
      defaultSub := (match d.defaultPermissions with
        | none => { allow := [], deny := [] }
        | some dp => buildPermission (dp.subAllow.getD []) (dp.subDeny.getD [])),
      trace := (match d.trace with
        | none => none
        | some tm =>
          match tm.destination with
          | none => none
          | some dest => some { destination := dest, sampling := tm.sampling.getD 0 }),
    } }

/-- Full account data-source `Read`: build the claims, then sign them with
the operator key pair through the deterministic pipeline. -/
def accountRead (d : AccountDataSourceModel) (accountKP operatorKP : KeyPair)
    (env : Env) : Option SignedToken :=
  encodeDeterministic (buildAccountClaims d accountKP.pub) operatorKP env

/-- Default system-account service export added by
`applySystemAccountDefaults` (datasource_system_account.go). -/
def sysServiceExport : Export :=
  { name := "account-monitoring-services",
    subject := "$SYS.REQ.ACCOUNT.*.*",
    kind := ExportKind.service,
    responseType := "Singleton",
    accountTokenPosition := 4,
    description := "Request account specific monitoring services for: SUBSZ, CONNZ, LEAFZ, JSZ and INFO",
    infoURL := "https://docs.nats.io/nats-server/configuration/sys_accounts" }

/-- Default system-account stream export added by
`applySystemAccountDefaults`. -/
def sysStreamExport : Export :=
  { name := "account-monitoring-streams",
    subject := "$SYS.ACCOUNT.*.>",
    kind := ExportKind.stream,
    responseType := "",
    accountTokenPosition := 3,
    description := "Account specific monitoring stream",
    infoURL := "https://docs.nats.io/nats-server/configuration/sys_accounts" }

/-- Model of `applySystemAccountDefaults`: unless some export already has
subject `$SYS.>`, append the two default monitoring exports. -/
def applySystemAccountDefaults (a : AccountFields) : AccountFields :=
  let hasSysExport := a.exportsList.any (fun e => e.subject = "$SYS.>")
  if hasSysExport then a
  else { a with exportsList := a.exportsList ++ [sysServiceExport, sysStreamExport] }

/-- Full system-account data-source `Read`
(`SystemAccountDataSource.Read`): build the account claims, apply the
system-account default exports, then sign with the operator key pair. -/
def systemAccountRead (d : AccountDataSourceModel) (accountKP operatorKP : KeyPair)
    (env : Env) : Option SignedToken :=
  let c := buildAccountClaims d accountKP.pub
  let c2 : Claims :=
    match c.payload with
    | ClaimPayload.account a =>
      { c with payload := ClaimPayload.account (applySystemAccountDefaults a) }
    | _ => c
  encodeDeterministic c2 operatorKP env

/-- Terraform model of the operator data source configuration
(`OperatorDataSourceModel`). -/
structure OperatorDataSourceModel where
  name : String
  signingKeys : Option (List String)
  accountServerURL : Option String
  operatorServiceURLs : Option (List String)
  systemAccount : Option String
  strictSigningKeyUsage : Option Bool
  issuedAt : Option Int
  expires : Option Int
  notBefore : Option Int
  tags : Option (List String)

/-- Claim construction of `OperatorDataSource.Read` (datasource_operator.go):
starts from `jwt.NewOperatorClaims(pub)` and copies each non-null
attribute; `issued_at` defaults to 0 and `not_before` to `issued_at`. -/
def buildOperatorClaims (d : OperatorDataSourceModel) (pub : String) : Claims :=
  { cd := { subject := pub, issuer := "", name := d.name,
            issuedAt := d.issuedAt.getD 0,
            expires := d.expires.getD 0,
            notBefore := (match d.notBefore with
              | some v => v
              | none => d.issuedAt.getD 0),
            id := "" },
    tags := d.tags.getD [],
    claimType := "",
    version := 0,
    payload := ClaimPayload.operator {
      signingKeys := d.signingKeys.getD [],
      accountServerURL := d.accountServerURL.getD "",
      operatorServiceURLs := d.operatorServiceURLs.getD [],
      systemAccount := d.systemAccount.getD "",
      strictSigningKeyUsage := d.strictSigningKeyUsage.getD false } }

/-- Full operator data-source `Read`: the operator self-signs (the same key
pair is both the subject's and the signer's). -/
def operatorRead (d : OperatorDataSourceModel) (kp : KeyPair) (env : Env) :
    Option SignedToken :=
  encodeDeterministic (buildOperatorClaims d kp.pub) kp env

/-- Outcome of the external `nkeys.DecodeSeed` on a seed attribute value. -/
inductive SeedDecodeResult where
  | failed
  | ok (role : KeyRole)
deriving DecidableEq, Repr

/-- Model of `seedTypeValidator.ValidateString` (validators.go): a null or
unknown value passes; a seed that fails to decode yields the
`Invalid NKey Seed` diagnostic; a decoded role different from the expected
one yields the `Wrong NKey Seed Type` diagnostic.  The returned list is the
diagnostics added to the response. -/
def seedTypeValidate (expected : KeyRole) (isNull : Bool)
    (decoded : SeedDecodeResult) : List String :=
  if isNull then []
  else
    match decoded with
    | SeedDecodeResult.failed => ["Invalid NKey Seed"]
    | SeedDecodeResult.ok p =>
      if p ≠ expected then ["Wrong NKey Seed Type"] else []

/-- Terraform model of the config-helper data source configuration
(`ConfigHelperDataSourceModel`).  Account and system-account tokens are
carried in structured form; `SignedToken.text` is the JWT string the Go code
receives and stores. -/
structure ConfigHelperModel where
  operatorJWT : String
  accountJWTs : Option (List SignedToken)
  systemAccountJWT : Option SignedToken
  resolverType : Option String

/-- Decode loop over `account_jwts`: each token is decoded as account claims
(failure aborts the read) and upserted into the preload map keyed by its
subject. -/
def decodeAccounts (ts : List SignedToken) (acc : List (String × String)) :
    Option (List (String × String)) :=
  match ts with
  | [] => some acc
  | t :: rest =>
    match decodeAccountClaims t with
    | none => none
    | some c => decodeAccounts rest (mapUpsert acc c.cd.subject t.text)

/-- Rendering of the `resolver_preload` block body: one `  <key>: <value>`
line per map entry. -/
def renderPreload : List (String × String) → String
  | [] => ""
  | (k, v) :: rest => "  " ++ k ++ ": " ++ v ++ "\n" ++ renderPreload rest

/-- Computed attributes of the config-helper data source. -/
structure ConfigResult where
  serverConfig : String
  operatorOut : String
  systemAccount : String
  resolver : String
  preload : List (String × String)
deriving Repr

/-- Full config-helper `Read` (`ConfigHelperDataSource.Read`): reject any
resolver type other than `MEMORY`; decode the system-account token (its
subject seeds both the `system_account` attribute and the preload map);
decode every account token into the preload map; render the line-oriented
server configuration, omitting the `system_account` line when the subject is
empty and the `resolver_preload` block when the map is empty. -/
def configRead (m : ConfigHelperModel) : Option ConfigResult :=
  match (match m.resolverType with
         | none => some "MEMORY"
         | some r => if r = "MEMORY" then some r else none : Option String) with
  | none => none
  | some rt =>
    match (match m.systemAccountJWT with
           | none => some ("", [])
           | some t =>
             match decodeAccountClaims t with
             | none => none
             | some c => some (c.cd.subject, [(c.cd.subject, t.text)]) :
           Option (String × List (String × String))) with
    | none => none
    | some sys =>
      match decodeAccounts (m.accountJWTs.getD []) sys.2 with
      | none => none
      | some preload =>
        some { serverConfig :=
                 "operator: " ++ m.operatorJWT ++ "\n" ++
                 (if sys.1 ≠ "" then "system_account: " ++ sys.1 ++ "\n" else "") ++
                 "resolver: " ++ rt ++ "\n" ++
                 (if preload.isEmpty then ""
                  else "resolver_preload: \x7b\n" ++ renderPreload preload ++ "\x7d\n"),
               operatorOut := m.operatorJWT,
               systemAccount := sys.1,
               resolver := rt,
               preload := preload }

/-- Character-level line join: the inverse direction of `splitNLChars`. -/
def joinNLChars : List (List Char) → List Char
  | [] => []
  | [x] => x
  | x :: y :: rest => x ++ '\n' :: joinNLChars (y :: rest)

/-- Character-level line split on `'\n'`. -/
def splitNLChars : List Char → List (List Char)
  | [] => [[]]
  | c :: rest =>
    match splitNLChars rest with
    | [] => [[]]
    | h :: t => if c = '\n' then [] :: h :: t else (c :: h) :: t

/-- Lines of a string. -/
def strLines (s : String) : List String :=
  (splitNLChars s.data).map String.mk

/-- Modelled from the spec: the begin marker of the token block of the
decorated credentials artifact (the creds-producing code referenced by the
user data source's `creds` attribute is not part of the sources at hand;
§6 specifies a two-block decorated text wrapping the signed token and the
owning seed, and the markers follow the NATS creds file format). -/
def credsJWTMarker : String := "-----BEGIN NATS USER JWT-----"

/-- Modelled from the spec: the begin marker of the seed block of the
decorated credentials artifact. -/
def credsSeedMarker : String := "-----BEGIN USER NKEY SEED-----"

/-- Modelled from the spec: the line structure of the decorated credentials
artifact — a block wrapping the signed token followed by a block wrapping
the owning entity's seed. -/
def credsLines (token seed : String) : List String :=
  [credsJWTMarker, token, "------END NATS USER JWT------", "",
   credsSeedMarker, seed, "------END USER NKEY SEED------", ""]

/-- Modelled from the spec: `renderCreds(token, seed)`, the producer of the
decorated credentials text. -/
def renderCreds (token seed : String) : String :=
  String.mk (joinNLChars ((credsLines token seed).map String.data))

/-- Line following the first occurrence of a marker line. -/
def afterMarker (marker : String) : List String → Option String
  | [] => none
  | l :: rest => if l = marker then rest.head? else afterMarker marker rest

/-- Modelled from the spec: the token-extraction half of creds parsing
(`jwt.ParseDecoratedJWT` contract) — the line after the token block's begin
marker. -/
def parseDecoratedJWT (creds : String) : Option String :=
  afterMarker credsJWTMarker (strLines creds)

/-- Modelled from the spec: the seed-extraction half of creds parsing
(`jwt.ParseDecoratedUserNKey` contract) — the line after the seed block's
begin marker. -/
def parseDecoratedSeed (creds : String) : Option String :=
  afterMarker credsSeedMarker (strLines creds)

/-- Modelled from the spec: the user data source extended with the `creds`
computed attribute — the decorated credentials artifact wrapping the issued
token and the user's own seed. -/
def userReadCreds (pd : String → Option Int) (d : UserDataSourceModel)
    (userKP accountKP : KeyPair) (env : Env) : Option (SignedToken × String) :=
  match userRead pd d userKP accountKP env with
  | none => none
  | some tok => some (tok, renderCreds tok.text userKP.seed)

/-- Success of the deterministic pipeline is decided by the library's role
checks alone — the environment (wall-clock, identifier) plays no part. -/
theorem encodeDeterministic_isSome (c : Claims) (kp : KeyPair) (env : Env) :
    (encodeDeterministic c kp env).isSome =
      (validSubjectFor c.payload c.cd.subject && issuerAllowedFor c.payload kp.pub) := by
  unfold encodeDeterministic libEncode
  by_cases h : (validSubjectFor c.payload c.cd.subject && issuerAllowedFor c.payload kp.pub) = true
  · simp [h]
  · simp [h]

/-- Claims as they come out of the deterministic pipeline: issuer set to the
signer's public key, identifier cleared, library bookkeeping stamped, every
other field carried over unchanged. -/
def encodedClaims (c : Claims) (pub : String) : Claims :=
  { c with cd := { c.cd with issuer := pub, id := "" }, claimType := claimTypeOf c.payload, version := 2 }

/-- Shape of the claims embedded in a token produced by the pipeline: the
issuer is set to the signer's public key, the identifier is cleared, the
library bookkeeping is stamped, and every other field — in particular the
subject and the three temporal fields — is carried over unchanged. -/
theorem encodeDeterministic_claims (c : Claims) (kp : KeyPair) (env : Env)
    (tok : SignedToken) (h : encodeDeterministic c kp env = some tok) :
    tok.claims = encodedClaims c kp.pub := by
  unfold encodeDeterministic libEncode at h
  by_cases hc : (validSubjectFor c.payload c.cd.subject && issuerAllowedFor c.payload kp.pub) = true
  · simp [hc] at h
    simp [← h, encodedClaims]
  · simp [hc] at h

/-- C1.  Signing determinism: for every fixed claim set and signer key pair,
the deterministic signing pipeline `encodeDeterministic` returns the same
(byte-identical) result under any two environments — the wall-clock time and
request identifier the underlying library stamps during the trial encode
never reach the output; the operator data source inherits the property. -/
theorem claim_C1_signing_determinism :
    (∀ (c : Claims) (kp : KeyPair) (e1 e2 : Env),
      encodeDeterministic c kp e1 = encodeDeterministic c kp e2) ∧
    (∀ (d : OperatorDataSourceModel) (kp : KeyPair) (e1 e2 : Env),
      operatorRead d kp e1 = operatorRead d kp e2) := by
  have hmain : ∀ (c : Claims) (kp : KeyPair) (e1 e2 : Env),
      encodeDeterministic c kp e1 = encodeDeterministic c kp e2 := by
    intro c kp e1 e2
    unfold encodeDeterministic libEncode
    by_cases h : (validSubjectFor c.payload c.cd.subject && issuerAllowedFor c.payload kp.pub) = true
    · simp [h]
    · simp [h]
  exact ⟨hmain, fun d kp e1 e2 => hmain _ kp e1 e2⟩

/-- Shape of the common claim fields produced by the user claim builder:
subject from the user key, empty issuer, and all three temporal fields at 0
(the schema has no temporal attributes). -/
theorem buildUserClaims_cd (pd : String → Option Int) (d : UserDataSourceModel)
    (pub : String) (c : Claims) (h : buildUserClaims pd d pub = some c) :
    c.cd = { subject := pub, issuer := "", name := d.name, issuedAt := 0, expires := 0, notBefore := 0, id := "" } := by
  unfold buildUserClaims at h
  split at h
  · simp at h
  · injection h with h
    rw [← h]

/-- The user claim builder always produces a user payload. -/
theorem buildUserClaims_payload (pd : String → Option Int) (d : UserDataSourceModel)
    (pub : String) (c : Claims) (h : buildUserClaims pd d pub = some c) :
    ∃ u, c.payload = ClaimPayload.user u := by
  unfold buildUserClaims at h
  split at h
  · simp at h
  · injection h with h
    exact ⟨_, by rw [← h]⟩

/-- The account claim builder always produces an account payload. -/
theorem buildAccountClaims_payload (d : AccountDataSourceModel) (pub : String) :
    ∃ a, (buildAccountClaims d pub).payload = ClaimPayload.account a :=
  ⟨_, rfl⟩

/-- C9.  Role enforcement: the seed validator passes a supplied (non-null)
seed exactly when it decodes to the expected role — a failed decode or a
wrong-role seed always surfaces a diagnostic; and independently, the signing
pipeline itself refuses a signer whose public key is not of a role the claim
kind accepts, so a wrong-role signer can never silently proceed to sign. -/
theorem claim_C9_role_enforcement :
    (∀ (expected : KeyRole) (decoded : SeedDecodeResult),
      seedTypeValidate expected false decoded = [] ↔ decoded = SeedDecodeResult.ok expected) ∧
    (∀ (c : Claims) (kp : KeyPair) (env : Env),
      issuerAllowedFor c.payload kp.pub = false → encodeDeterministic c kp env = none) := by
  constructor
  · intro expected decoded
    cases decoded with
    | failed => simp [seedTypeValidate]
    | ok p =>
      by_cases hp : p = expected
      · simp [seedTypeValidate, hp]
      · simp [seedTypeValidate, hp]
  · intro c kp env h
    have hs := encodeDeterministic_isSome c kp env
    rw [h, Bool.and_false] at hs
    cases hopt : encodeDeterministic c kp env with
    | none => rfl
    | some t => rw [hopt] at hs; simp at hs

/-- Minimal account data-source configuration: just a name, every optional
attribute null. -/
def accountDataMin : AccountDataSourceModel :=
  { name := "acme", signingKeys := none, issuedAt := none, expires := none,
    notBefore := none, description := none, infoURL := none, tags := none,
    natsLimits := none, accountLimits := none, jetstreamLimits := none,
    defaultPermissions := none, trace := none }

/-- Concrete user key pair for witnesses. -/
def kpUserW : KeyPair := { seed := "SUSEEDX", pub := "UPUBX", sign := fun _ => "SG" }

/-- Concrete account key pair for witnesses. -/
def kpAccountW : KeyPair := { seed := "SASEEDX", pub := "APUBX", sign := fun _ => "SG" }

/-- Concrete operator key pair for witnesses. -/
def kpOperatorW : KeyPair := { seed := "SOSEEDX", pub := "OPUBX", sign := fun _ => "SG" }

/-- Concrete environment for witnesses (an arbitrary wall-clock instant and
identifier). -/
def envW : Env := { now := 1700000000, jti := "RANDOMID" }

/-- Account claims built from the minimal configuration, used as a concrete
claim set in witnesses. -/
def claimsAcmeW : Claims := buildAccountClaims accountDataMin kpAccountW.pub

/-- Witness for C9: a user-role result where an account seed is expected is
flagged by the validator, and signing account claims with a user key pair
fails rather than proceeding. -/
theorem claim_C9_role_enforcement_witness :
    seedTypeValidate KeyRole.account false (SeedDecodeResult.ok KeyRole.user) ≠ [] ∧
    encodeDeterministic claimsAcmeW kpUserW envW = none := by
  constructor
  · intro h
    have := (claim_C9_role_enforcement.1 KeyRole.account (SeedDecodeResult.ok KeyRole.user)).mp h
    simp at this
  · exact claim_C9_role_enforcement.2 claimsAcmeW kpUserW envW (by decide)

/-- C10.  User tokens carry no temporal claims: the user data-source schema
exposes no `issued_at` / `expires` / `not_before` attributes, and every token
the user build produces has `iat = 0`, `exp = 0` and `nbf = 0` in its decoded
claims. -/
theorem claim_C10_user_temporal_zero (pd : String → Option Int)
    (d : UserDataSourceModel) (ukp akp : KeyPair) (env : Env) (tok : SignedToken)
    (h : userRead pd d ukp akp env = some tok) :
    tok.claims.cd.issuedAt = 0 ∧ tok.claims.cd.expires = 0 ∧ tok.claims.cd.notBefore = 0 := by
  unfold userRead at h
  cases hb : buildUserClaims pd d ukp.pub with
  | none => rw [hb] at h; simp at h
  | some c =>
    rw [hb] at h
    have hc := encodeDeterministic_claims c akp env tok h
    have hcd := buildUserClaims_cd pd d ukp.pub c hb
    rw [hc]
    simp [encodedClaims, hcd]

/-- Minimal user data-source configuration. -/
def userDataMin : UserDataSourceModel :=
  { name := "app-user", issuerAccount := none, permissions := none,
    limits := none, bearerToken := none, allowedConnectionTypes := none,
    sourceNetworks := none, timeRestrictions := none, locale := none, tags := none }

/-- Duration parser instance used in witnesses (its value is irrelevant when
no `resp_ttl` is supplied). -/
def pdW : String → Option Int := fun _ => none

/-- Fallback token for extracting concrete results in witnesses. -/
def dummyToken : SignedToken := { text := "", claims := claimsAcmeW }

/-- Concrete token produced by the minimal user build. -/
def tokUserW : SignedToken := (userRead pdW userDataMin kpUserW kpAccountW envW).getD dummyToken

/-- Witness for C10: the minimal user build succeeds and its token has all
three temporal fields at 0. -/
theorem claim_C10_user_temporal_zero_witness :
    userRead pdW userDataMin kpUserW kpAccountW envW = some tokUserW ∧
    tokUserW.claims.cd.issuedAt = 0 ∧ tokUserW.claims.cd.expires = 0 ∧ tokUserW.claims.cd.notBefore = 0 := by
  refine ⟨rfl, ?_⟩
  exact claim_C10_user_temporal_zero pdW userDataMin kpUserW kpAccountW envW tokUserW rfl

/-- C5.  Chain verifiability: every token the account build entry point
produces decodes as account claims whose issuer is the operator signer's
public key and whose subject is the account's own public key. -/
theorem claim_C5_chain_verifiability (d : AccountDataSourceModel)
    (akp okp : KeyPair) (env : Env) (tok : SignedToken)
    (h : accountRead d akp okp env = some tok) :
    ∃ c, decodeAccountClaims tok = some c ∧ c.cd.issuer = okp.pub ∧ c.cd.subject = akp.pub := by
  unfold accountRead at h
  have hc := encodeDeterministic_claims _ _ _ _ h
  have hpay : ∃ a, tok.claims.payload = ClaimPayload.account a := by
    rw [hc]; exact ⟨_, rfl⟩
  obtain ⟨a, hpay⟩ := hpay
  refine ⟨tok.claims, ?_, ?_, ?_⟩
  · simp [decodeAccountClaims, hpay]
  · rw [hc]; rfl
  · rw [hc]; rfl

/-- Concrete token produced by the minimal account build. -/
def tokAccountW : SignedToken := (accountRead accountDataMin kpAccountW kpOperatorW envW).getD dummyToken

/-- Witness for C5: the minimal account build succeeds and its token decodes
with the operator's public key as issuer and the account's as subject. -/
theorem claim_C5_chain_verifiability_witness :
    accountRead accountDataMin kpAccountW kpOperatorW envW = some tokAccountW ∧
    ∃ c, decodeAccountClaims tokAccountW = some c ∧ c.cd.issuer = kpOperatorW.pub ∧ c.cd.subject = kpAccountW.pub := by
  refine ⟨rfl, ?_⟩
  exact claim_C5_chain_verifiability accountDataMin kpAccountW kpOperatorW envW tokAccountW rfl

/-- Payload fields of a successfully built user claim set relevant to time
restrictions: the `times` list is the input ranges copied verbatim and the
locale is the supplied value, or the empty string when the attribute is
null — there is no cross-field validation tying the two together. -/
theorem buildUserClaims_times_locale (pd : String → Option Int)
    (d : UserDataSourceModel) (pub : String) (c : Claims)
    (h : buildUserClaims pd d pub = some c) :
    ∃ u, c.payload = ClaimPayload.user u ∧
      u.times = (d.timeRestrictions.getD []).map (fun tr => { start := tr.start, stop := tr.stop }) ∧
      u.locale = d.locale.getD "" := by
  unfold buildUserClaims at h
  split at h
  · simp at h
  · injection h with h
    rw [← h]
    exact ⟨_, rfl, rfl, rfl⟩

/-- C3 (amended).  The user build applies no cross-field rule to
`time_restrictions` and `locale`: whatever token it produces carries the
supplied time restrictions verbatim, and the locale is the supplied value
when set and the empty string when unset — a non-empty restriction list with
an unset locale is not rejected. -/
theorem claim_C3_time_restrictions_uncoupled (pd : String → Option Int)
    (d : UserDataSourceModel) (ukp akp : KeyPair) (env : Env) (tok : SignedToken)
    (h : userRead pd d ukp akp env = some tok) :
    ∃ c u, decodeUserClaims tok = some c ∧ c.payload = ClaimPayload.user u ∧
      u.times = (d.timeRestrictions.getD []).map (fun tr => { start := tr.start, stop := tr.stop }) ∧
      u.locale = d.locale.getD "" := by
  unfold userRead at h
  cases hb : buildUserClaims pd d ukp.pub with
  | none => rw [hb] at h; simp at h
  | some c0 =>
    rw [hb] at h
    have hc := encodeDeterministic_claims c0 akp env tok h
    obtain ⟨u, hu, ht, hl⟩ := buildUserClaims_times_locale pd d ukp.pub c0 hb
    have hpay : tok.claims.payload = ClaimPayload.user u := by
      rw [hc]; simpa [encodedClaims] using hu
    exact ⟨tok.claims, u, by simp [decodeUserClaims, hpay], hpay, ht, hl⟩

/-- User data-source configuration with a time restriction but no locale. -/
def userDataNoLocale : UserDataSourceModel :=
  { userDataMin with timeRestrictions := some [{ start := "08:00:00", stop := "17:00:00" }] }

/-- Concrete token produced by the no-locale user build. -/
def tokNoLocaleW : SignedToken :=
  (userRead pdW userDataNoLocale kpUserW kpAccountW envW).getD dummyToken

/-- User payload of the no-locale token, extracted concretely. -/
def uNoLocaleW : UserFields := (userFieldsOf tokNoLocaleW.claims).getD default

/-- Counterexample for C3: a build request with a non-empty
`time_restrictions` list and a null `locale` does not fail — the read
returns a signed token (no `MalformedInput` diagnostic is ever produced on
this path), with the restriction present and the locale silently empty. -/
theorem claim_C3_counterexample :
    userRead pdW userDataNoLocale kpUserW kpAccountW envW = some tokNoLocaleW ∧
    ∃ c u, decodeUserClaims tokNoLocaleW = some c ∧ c.payload = ClaimPayload.user u ∧
      u.times = [{ start := "08:00:00", stop := "17:00:00" }] ∧ u.locale = "" :=
  ⟨rfl, tokNoLocaleW.claims, uNoLocaleW, rfl, rfl, rfl, rfl⟩

/-- User data-source configuration with both a time restriction and a
locale. -/
def userDataWithLocale : UserDataSourceModel :=
  { userDataMin with timeRestrictions := some [{ start := "08:00:00", stop := "17:00:00" }], locale := some "America/New_York" }

/-- Concrete token produced by the restriction-and-locale user build. -/
def tokLocaleW : SignedToken :=
  (userRead pdW userDataWithLocale kpUserW kpAccountW envW).getD dummyToken

/-- Witness for the amended C3: with both attributes supplied, the build
succeeds and restrictions and locale round-trip through decode unchanged. -/
theorem claim_C3_witness :
    userRead pdW userDataWithLocale kpUserW kpAccountW envW = some tokLocaleW ∧
    ∃ c u, decodeUserClaims tokLocaleW = some c ∧ c.payload = ClaimPayload.user u ∧
      u.times = [{ start := "08:00:00", stop := "17:00:00" }] ∧ u.locale = "America/New_York" := by
  refine ⟨rfl, ?_⟩
  exact claim_C3_time_restrictions_uncoupled pdW userDataWithLocale kpUserW kpAccountW envW tokLocaleW rfl

/-- Value of the last unlabeled (global) `jetstream_limits` block of a list,
if any: later blocks take precedence. -/
def lastGlobalValue (blocks : List JetStreamLimitsModel) : Option JetStreamLimits :=
  match blocks with
  | [] => none
  | b :: rest =>
    match lastGlobalValue rest with
    | some v => some v
    | none => if isGlobalBlock b then some (jsLimitsOfBlock b) else none

/-- Value of the last block labeled with a given tier, if any: later blocks
take precedence (last write per tier wins). -/
def lastTierValue (blocks : List JetStreamLimitsModel) (t : String) : Option JetStreamLimits :=
  match blocks with
  | [] => none
  | b :: rest =>
    match lastTierValue rest t with
    | some v => some v
    | none => if b.tier = some t ∧ ¬ isGlobalBlock b then some (jsLimitsOfBlock b) else none

/-- Upserting a key and looking it up returns the new value. -/
theorem mapLookup_mapUpsert_self {α : Type} (m : List (String × α)) (k : String) (v : α) :
    mapLookup (mapUpsert m k v) k = some v := by
  induction m with
  | nil => simp [mapUpsert, mapLookup]
  | cons p rest ih =>
    by_cases hk : p.1 = k
    · simp [mapUpsert, mapLookup, hk]
    · simp [mapUpsert, mapLookup, hk, ih]

/-- Upserting one key leaves lookups of other keys unchanged. -/
theorem mapLookup_mapUpsert_other {α : Type} (m : List (String × α)) (k k2 : String) (v : α)
    (hne : k2 ≠ k) : mapLookup (mapUpsert m k v) k2 = mapLookup m k2 := by
  induction m with
  | nil => simp [mapUpsert, mapLookup, Ne.symm hne]
  | cons p rest ih =>
    by_cases hk : p.1 = k
    · simp [mapUpsert, mapLookup, hk, Ne.symm hne]
    · by_cases hk2 : p.1 = k2
      · simp [mapUpsert, mapLookup, hk, hk2, hne]
      · simp [mapUpsert, mapLookup, hk, hk2, ih]

/-- The global record produced by the block fold is the last unlabeled block
(or the starting record when no block is unlabeled) — earlier unlabeled
blocks are overwritten with no trace. -/
theorem applyJsBlocks_global (blocks : List JetStreamLimitsModel)
    (g : JetStreamLimits) (m : List (String × JetStreamLimits)) :
    (applyJsBlocks blocks (g, m)).1 = (lastGlobalValue blocks).getD g := by
  induction blocks generalizing g m with
  | nil => rfl
  | cons b rest ih =>
    cases hb : b.tier with
    | none =>
      cases hl : lastGlobalValue rest with
      | none => simp [applyJsBlocks, lastGlobalValue, hb, hl, ih, isGlobalBlock]
      | some v => simp [applyJsBlocks, lastGlobalValue, hb, hl, ih]
    | some t =>
      by_cases ht : t = ""
      · subst ht
        cases hl : lastGlobalValue rest with
        | none => simp [applyJsBlocks, lastGlobalValue, hb, hl, ih, isGlobalBlock]
        | some v => simp [applyJsBlocks, lastGlobalValue, hb, hl, ih]
      · cases hl : lastGlobalValue rest with
        | none => simp [applyJsBlocks, lastGlobalValue, hb, hl, ih, isGlobalBlock, ht]
        | some v => simp [applyJsBlocks, lastGlobalValue, hb, hl, ih, ht]

/-- Tier-map lookup after the block fold: the last labeled block for the
tier wins; a tier never written falls back to the starting map. -/
theorem applyJsBlocks_lookup (blocks : List JetStreamLimitsModel)
    (g : JetStreamLimits) (m : List (String × JetStreamLimits)) (t : String) :
    mapLookup (applyJsBlocks blocks (g, m)).2 t =
      (lastTierValue blocks t).elim (mapLookup m t) some := by
  induction blocks generalizing g m with
  | nil => rfl
  | cons b rest ih =>
    cases hb : b.tier with
    | none =>
      cases hl : lastTierValue rest t with
      | none => simp [applyJsBlocks, lastTierValue, hb, hl, ih]
      | some v => simp [applyJsBlocks, lastTierValue, hb, hl, ih]
    | some tb =>
      by_cases htb : tb = ""
      · subst htb
        cases hl : lastTierValue rest t with
        | none => simp [applyJsBlocks, lastTierValue, hb, hl, ih, isGlobalBlock]
        | some v => simp [applyJsBlocks, lastTierValue, hb, hl, ih]
      · by_cases htt : tb = t
        · subst htt
          cases hl : lastTierValue rest tb with
          | none =>
            simp [applyJsBlocks, lastTierValue, hb, hl, ih, isGlobalBlock, htb,
              mapLookup_mapUpsert_self]
          | some v =>
            simp [applyJsBlocks, lastTierValue, hb, hl, ih, htb]
        · cases hl : lastTierValue rest t with
          | none =>
            simp [applyJsBlocks, lastTierValue, hb, hl, ih, isGlobalBlock, htb, htt,
              mapLookup_mapUpsert_other m tb t _ (fun hh => htt hh.symm)]
          | some v =>
            simp [applyJsBlocks, lastTierValue, hb, hl, ih, htb]

/-- Account payload shape of the account claim builder: its JetStream
records are the fold of the configured blocks starting from the constructor
defaults, and the exports list starts empty (the schema has no exports
attribute). -/
theorem buildAccountClaims_account (d : AccountDataSourceModel) (pub : String) :
    ∃ a, (buildAccountClaims d pub).payload = ClaimPayload.account a ∧
      a.jsGlobal = (applyJsBlocks (d.jetstreamLimits.getD []) (jsLimitsDefault, [])).1 ∧
      a.jsTiered = (applyJsBlocks (d.jetstreamLimits.getD []) (jsLimitsDefault, [])).2 ∧
      a.exportsList = [] :=
  ⟨_, rfl, rfl, rfl, rfl⟩

/-- No-op fact about `lastGlobalValue` on fully labeled block lists. -/
theorem lastGlobalValue_none (blocks : List JetStreamLimitsModel)
    (hlab : ∀ b ∈ blocks, isGlobalBlock b = false) :
    lastGlobalValue blocks = none := by
  induction blocks with
  | nil => rfl
  | cons b rest ih =>
    have hb := hlab b (by simp)
    have hrest := ih (fun x hx => hlab x (by simp [hx]))
    simp [lastGlobalValue, hrest, hb]

/-- C8.  Tiered JetStream placement: when every configured JetStream block
carries a (non-empty) tier label, the token's account claims map each tier
to the value of the last block labeled with it, and the single global limit
record is left at its default sentinel. -/
theorem claim_C8_tiered_jetstream (d : AccountDataSourceModel)
    (blocks : List JetStreamLimitsModel) (akp okp : KeyPair) (env : Env)
    (tok : SignedToken)
    (hjs : d.jetstreamLimits = some blocks)
    (hlab : ∀ b ∈ blocks, isGlobalBlock b = false)
    (h : accountRead d akp okp env = some tok) :
    ∃ c a, decodeAccountClaims tok = some c ∧ c.payload = ClaimPayload.account a ∧
      a.jsGlobal = jsLimitsDefault ∧
      ∀ t, mapLookup a.jsTiered t = lastTierValue blocks t := by
  unfold accountRead at h
  have hc := encodeDeterministic_claims _ _ _ _ h
  obtain ⟨a, hpay, hg, htd, _⟩ := buildAccountClaims_account d akp.pub
  have hpayt : tok.claims.payload = ClaimPayload.account a := by
    rw [hc]; simpa [encodedClaims] using hpay
  refine ⟨tok.claims, a, by simp [decodeAccountClaims, hpayt], hpayt, ?_, ?_⟩
  · rw [hg, hjs]
    simp [applyJsBlocks_global, lastGlobalValue_none blocks hlab]
  · intro t
    rw [htd, hjs]
    simp only [Option.getD_some]
    rw [applyJsBlocks_lookup]
    cases lastTierValue blocks t with
    | none => rfl
    | some v => rfl

/-- R1-labeled JetStream block with 5 streams. -/
def jsBlockR1 : JetStreamLimitsModel :=
  { tier := some "R1", memStorage := none, diskStorage := none, streams := some 5,
    consumer := none, maxAckPending := none, memMaxStreamBytes := none,
    diskMaxStreamBytes := none, maxBytesRequired := none }

/-- R3-labeled JetStream block with 10 streams. -/
def jsBlockR3 : JetStreamLimitsModel :=
  { jsBlockR1 with tier := some "R3", streams := some 10 }

/-- Account configuration with only tier-labeled JetStream blocks. -/
def accountDataTiered : AccountDataSourceModel :=
  { accountDataMin with jetstreamLimits := some [jsBlockR1, jsBlockR3] }

/-- Concrete token of the tiered account build. -/
def tokTieredW : SignedToken :=
  (accountRead accountDataTiered kpAccountW kpOperatorW envW).getD dummyToken

/-- Witness for C8: the R1/R3 build succeeds, `tierMap[R1].streams = 5`,
`tierMap[R3].streams = 10`, and the global record stays at its default. -/
theorem claim_C8_tiered_jetstream_witness :
    accountRead accountDataTiered kpAccountW kpOperatorW envW = some tokTieredW ∧
    ∃ c a, decodeAccountClaims tokTieredW = some c ∧ c.payload = ClaimPayload.account a ∧
      a.jsGlobal = jsLimitsDefault ∧
      (mapLookup a.jsTiered "R1").map (fun l => l.streams) = some 5 ∧
      (mapLookup a.jsTiered "R3").map (fun l => l.streams) = some 10 := by
  obtain ⟨c, a, hdec, hpay, hg, hlook⟩ :=
    claim_C8_tiered_jetstream accountDataTiered [jsBlockR1, jsBlockR3]
      kpAccountW kpOperatorW envW tokTieredW rfl (by decide) rfl
  refine ⟨rfl, c, a, hdec, hpay, hg, ?_, ?_⟩
  · rw [hlook]; rfl
  · rw [hlook]; rfl

/-- C4 (amended).  Conflicting unlabeled JetStream blocks are not flagged:
the build succeeds with no conflict diagnostic, and the single global limit
record of the produced token is the value of the last unlabeled block —
earlier unlabeled blocks are overwritten silently (the result is observable
only by inspecting the decoded output). -/
theorem claim_C4_last_unlabeled_wins (d : AccountDataSourceModel)
    (blocks : List JetStreamLimitsModel) (akp okp : KeyPair) (env : Env)
    (tok : SignedToken)
    (hjs : d.jetstreamLimits = some blocks)
    (h : accountRead d akp okp env = some tok) :
    ∃ c a, decodeAccountClaims tok = some c ∧ c.payload = ClaimPayload.account a ∧
      a.jsGlobal = (lastGlobalValue blocks).getD jsLimitsDefault := by
  unfold accountRead at h
  have hc := encodeDeterministic_claims _ _ _ _ h
  obtain ⟨a, hpay, hg, _, _⟩ := buildAccountClaims_account d akp.pub
  have hpayt : tok.claims.payload = ClaimPayload.account a := by
    rw [hc]; simpa [encodedClaims] using hpay
  refine ⟨tok.claims, a, by simp [decodeAccountClaims, hpayt], hpayt, ?_⟩
  rw [hg, hjs]
  simp [applyJsBlocks_global]

/-- First unlabeled JetStream block (1 stream). -/
def jsBlockG1 : JetStreamLimitsModel :=
  { tier := none, memStorage := none, diskStorage := none, streams := some 1,
    consumer := none, maxAckPending := none, memMaxStreamBytes := none,
    diskMaxStreamBytes := none, maxBytesRequired := none }

/-- Second unlabeled JetStream block (2 streams). -/
def jsBlockG2 : JetStreamLimitsModel := { jsBlockG1 with streams := some 2 }

/-- Account configuration with two unlabeled JetStream blocks. -/
def accountDataTwoGlobal : AccountDataSourceModel :=
  { accountDataMin with jetstreamLimits := some [jsBlockG1, jsBlockG2] }

/-- Concrete token of the two-unlabeled-blocks account build. -/
def tokTwoGlobalW : SignedToken :=
  (accountRead accountDataTwoGlobal kpAccountW kpOperatorW envW).getD dummyToken

/-- Account payload of the two-unlabeled-blocks token, extracted
concretely. -/
def aTwoGlobalW : AccountFields := (accountFieldsOf tokTwoGlobalW.claims).getD default

/-- Counterexample for C4: a build request with two unlabeled JetStream
blocks is not flagged — the read succeeds, returning only a signed token (no
conflict diagnostic exists on this path), and the first block's value (1
stream) has been silently replaced by the second's (2 streams). -/
theorem claim_C4_counterexample :
    accountRead accountDataTwoGlobal kpAccountW kpOperatorW envW = some tokTwoGlobalW ∧
    ∃ c a, decodeAccountClaims tokTwoGlobalW = some c ∧ c.payload = ClaimPayload.account a ∧
      a.jsGlobal.streams = 2 ∧ a.jsTiered = [] :=
  ⟨rfl, tokTwoGlobalW.claims, aTwoGlobalW, rfl, rfl, rfl, rfl⟩

/-- Witness for the amended C4: at the two-unlabeled-blocks input, the build
succeeds and the global record equals the last unlabeled block's value. -/
theorem claim_C4_witness :
    accountRead accountDataTwoGlobal kpAccountW kpOperatorW envW = some tokTwoGlobalW ∧
    ∃ c a, decodeAccountClaims tokTwoGlobalW = some c ∧ c.payload = ClaimPayload.account a ∧
      a.jsGlobal = (lastGlobalValue [jsBlockG1, jsBlockG2]).getD jsLimitsDefault :=
  ⟨rfl, claim_C4_last_unlabeled_wins accountDataTwoGlobal [jsBlockG1, jsBlockG2]
    kpAccountW kpOperatorW envW tokTwoGlobalW rfl rfl⟩

/-- Exports of any token the system-account entry point produces: since the
account schema exposes no exports attribute, the claims reach
`applySystemAccountDefaults` with an empty export list, so the output is
exactly the two default monitoring exports — once each. -/
theorem systemAccountRead_exports (d : AccountDataSourceModel) (akp okp : KeyPair)
    (env : Env) (tok : SignedToken) (h : systemAccountRead d akp okp env = some tok) :
    ∃ a, tok.claims.payload = ClaimPayload.account a ∧
      a.exportsList = [sysServiceExport, sysStreamExport] := by
  obtain ⟨a0, hpay0, _, _, hexp0⟩ := buildAccountClaims_account d akp.pub
  unfold systemAccountRead at h
  simp only [] at h
  rw [hpay0] at h
  have hc := encodeDeterministic_claims _ _ _ _ h
  refine ⟨applySystemAccountDefaults a0, ?_, ?_⟩
  · rw [hc]; simp [encodedClaims]
  · simp [applySystemAccountDefaults, hexp0]

/-- C6.  System-account default-export merge: every token the system-account
entry point produces carries exactly the two default monitoring exports (the
request/reply service export on the monitoring-request subject and the
stream export on the monitoring-stream subject), with no duplicates; a
second build with identical inputs yields a token with an equal export list,
so repeated builds never append further defaults. -/
theorem claim_C6_system_account_default_exports (d : AccountDataSourceModel)
    (akp okp : KeyPair) (env : Env) (tok : SignedToken)
    (h : systemAccountRead d akp okp env = some tok) :
    ∃ c a, decodeAccountClaims tok = some c ∧ c.payload = ClaimPayload.account a ∧
      a.exportsList = [sysServiceExport, sysStreamExport] ∧
      sysServiceExport.kind = ExportKind.service ∧
      sysServiceExport.subject = "$SYS.REQ.ACCOUNT.*.*" ∧
      sysStreamExport.kind = ExportKind.stream ∧
      sysStreamExport.subject = "$SYS.ACCOUNT.*.>" ∧
      sysServiceExport ≠ sysStreamExport ∧
      (∀ env2 tok2, systemAccountRead d akp okp env2 = some tok2 →
        ∃ c2 a2, decodeAccountClaims tok2 = some c2 ∧
          c2.payload = ClaimPayload.account a2 ∧ a2.exportsList = a.exportsList) := by
  obtain ⟨a, hpay, hexp⟩ := systemAccountRead_exports d akp okp env tok h
  refine ⟨tok.claims, a, by simp [decodeAccountClaims, hpay], hpay, hexp,
    rfl, rfl, rfl, rfl, by decide, ?_⟩
  intro env2 tok2 h2
  obtain ⟨a2, hpay2, hexp2⟩ := systemAccountRead_exports d akp okp env2 tok2 h2
  exact ⟨tok2.claims, a2, by simp [decodeAccountClaims, hpay2], hpay2, by rw [hexp2, hexp]⟩

/-- Concrete token of the minimal system-account build. -/
def tokSysW : SignedToken :=
  (systemAccountRead accountDataMin kpAccountW kpOperatorW envW).getD dummyToken

/-- Concrete second-environment token of the same system-account build. -/
def envW2 : Env := { now := 1800000000, jti := "OTHERID" }

/-- Witness for C6: the minimal system-account build succeeds (under two
different environments) and both tokens carry exactly the two default
exports. -/
theorem claim_C6_system_account_default_exports_witness :
    systemAccountRead accountDataMin kpAccountW kpOperatorW envW = some tokSysW ∧
    ∃ c a, decodeAccountClaims tokSysW = some c ∧ c.payload = ClaimPayload.account a ∧
      a.exportsList = [sysServiceExport, sysStreamExport] := by
  obtain ⟨c, a, hdec, hpay, hexp, _⟩ :=
    claim_C6_system_account_default_exports accountDataMin kpAccountW kpOperatorW envW tokSysW rfl
  exact ⟨rfl, c, a, hdec, hpay, hexp⟩

/-- Whether a token's payload is an account payload, i.e. whether
`DecodeAccountClaims` accepts it. -/
def isAccountToken (t : SignedToken) : Bool :=
  match t.claims.payload with
  | ClaimPayload.account _ => true
  | _ => false

/-- Decoding an account token returns its embedded claims. -/
theorem decodeAccountClaims_of_isAccount (t : SignedToken)
    (h : isAccountToken t = true) : decodeAccountClaims t = some t.claims := by
  unfold isAccountToken at h
  unfold decodeAccountClaims
  cases hp : t.claims.payload with
  | account a => rfl
  | operator o => rw [hp] at h; simp at h
  | user u => rw [hp] at h; simp at h

/-- C7.  Bundle assembly: with one operator token, one system-account token
of subject `A1` and two account tokens of subjects `A2`, `A3` (all
distinct), the helper produces a preload map whose entries are exactly
`A1 ↦ t1`, `A2 ↦ t2`, `A3 ↦ t3`, reports the system account and the
`MEMORY` resolver, and renders the config with the operator line, the
`system_account` line for `A1`, the resolver line, and one
`resolver_preload` block whose entries are the `  <key>: <value>` lines of
the map; without a system-account token and accounts, both the
`system_account` line and the preload block are omitted. -/
theorem claim_C7_bundle_assembly (op : String) (t1 t2 t3 : SignedToken)
    (A1 A2 A3 : String)
    (h1 : isAccountToken t1 = true) (h2 : isAccountToken t2 = true)
    (h3 : isAccountToken t3 = true)
    (hs1 : t1.claims.cd.subject = A1) (hs2 : t2.claims.cd.subject = A2)
    (hs3 : t3.claims.cd.subject = A3)
    (hA1 : A1 ≠ "") (h21 : A2 ≠ A1) (h31 : A3 ≠ A1) (h32 : A3 ≠ A2) :
    (configRead { operatorJWT := op, accountJWTs := some [t2, t3], systemAccountJWT := some t1, resolverType := none } =
      some { serverConfig := "operator: " ++ op ++ "\n" ++ ("system_account: " ++ A1 ++ "\n") ++ "resolver: " ++ "MEMORY" ++ "\n" ++ ("resolver_preload: \x7b\n" ++ renderPreload [(A1, t1.text), (A2, t2.text), (A3, t3.text)] ++ "\x7d\n"), operatorOut := op, systemAccount := A1, resolver := "MEMORY", preload := [(A1, t1.text), (A2, t2.text), (A3, t3.text)] }) ∧
    (∀ op2, configRead { operatorJWT := op2, accountJWTs := none, systemAccountJWT := none, resolverType := none } =
      some { serverConfig := "operator: " ++ op2 ++ "\n" ++ "resolver: " ++ "MEMORY" ++ "\n", operatorOut := op2, systemAccount := "", resolver := "MEMORY", preload := [] }) := by
  constructor
  · simp [configRead, decodeAccounts, mapUpsert,
      decodeAccountClaims_of_isAccount t1 h1, decodeAccountClaims_of_isAccount t2 h2,
      decodeAccountClaims_of_isAccount t3 h3, hs1, hs2, hs3, hA1,
      Ne.symm h21, Ne.symm h31, Ne.symm h32]
  · intro op2
    simp [configRead, decodeAccounts, String.append_empty]

/-- Concrete structured account token for bundle-assembly witnesses. -/
def mkAccountTokenW (subj txt : String) : SignedToken :=
  { text := txt,
    claims := { cd := { subject := subj, issuer := "OPUBX", name := "", issuedAt := 0, expires := 0, notBefore := 0, id := "" }, tags := [], claimType := "account", version := 2, payload := ClaimPayload.account default } }

/-- System-account token used in the C7 witness. -/
def t1W : SignedToken := mkAccountTokenW "A1X" "T1"

/-- First account token used in the C7 witness. -/
def t2W : SignedToken := mkAccountTokenW "A2X" "T2"

/-- Second account token used in the C7 witness. -/
def t3W : SignedToken := mkAccountTokenW "A3X" "T3"

/-- Witness for C7: the assembly of the three concrete tokens produces
exactly the three-key preload map and the expected config text, and the
no-system-account, no-accounts assembly omits both the `system_account` line
and the preload block. -/
theorem claim_C7_bundle_assembly_witness :
    configRead { operatorJWT := "OPJWT", accountJWTs := some [t2W, t3W], systemAccountJWT := some t1W, resolverType := none } =
      some { serverConfig := "operator: " ++ "OPJWT" ++ "\n" ++ ("system_account: " ++ "A1X" ++ "\n") ++ "resolver: " ++ "MEMORY" ++ "\n" ++ ("resolver_preload: \x7b\n" ++ renderPreload [("A1X", "T1"), ("A2X", "T2"), ("A3X", "T3")] ++ "\x7d\n"), operatorOut := "OPJWT", systemAccount := "A1X", resolver := "MEMORY", preload := [("A1X", "T1"), ("A2X", "T2"), ("A3X", "T3")] } ∧
    configRead { operatorJWT := "OP2", accountJWTs := none, systemAccountJWT := none, resolverType := none } =
      some { serverConfig := "operator: " ++ "OP2" ++ "\n" ++ "resolver: " ++ "MEMORY" ++ "\n", operatorOut := "OP2", systemAccount := "", resolver := "MEMORY", preload := [] } := by
  have hmain := claim_C7_bundle_assembly "OPJWT" t1W t2W t3W "A1X" "A2X" "A3X"
    rfl rfl rfl rfl rfl rfl (by decide) (by decide) (by decide) (by decide)
  exact ⟨hmain.1, hmain.2 "OP2"⟩

/-- Rebuilding a string from its data. -/
theorem mk_data_eq (s : String) : String.mk s.data = s := rfl

/-- The line splitter never returns an empty list. -/
theorem splitNLChars_ne_nil (cs : List Char) : splitNLChars cs ≠ [] := by
  cases cs with
  | nil => simp [splitNLChars]
  | cons c rest =>
    unfold splitNLChars
    cases splitNLChars rest with
    | nil => simp
    | cons h t =>
      by_cases hc : c = '\n' <;> simp [hc]

/-- A newline-free character list splits into a single line. -/
theorem splitNLChars_no_newline (cs : List Char) (h : '\n' ∉ cs) :
    splitNLChars cs = [cs] := by
  induction cs with
  | nil => rfl
  | cons c rest ih =>
    have hc : c ≠ '\n' := fun hh => h (hh ▸ List.mem_cons_self c rest)
    have hrest : '\n' ∉ rest := fun hh => h (List.mem_cons_of_mem c hh)
    unfold splitNLChars
    rw [ih hrest]
    simp [hc]

/-- Unfolding equation of the line splitter on a cons cell. -/
theorem splitNLChars_cons (c : Char) (rest : List Char) :
    splitNLChars (c :: rest) =
      (match splitNLChars rest with
       | [] => [[]]
       | h :: t => if c = '\n' then [] :: h :: t else (c :: h) :: t) := rfl

/-- Splitting a line, a newline, and a remainder yields the line followed by
the split of the remainder. -/
theorem splitNLChars_append (x w : List Char) (hx : '\n' ∉ x) :
    splitNLChars (x ++ '\n' :: w) = x :: splitNLChars w := by
  induction x with
  | nil =>
    rw [List.nil_append, splitNLChars_cons]
    cases hw : splitNLChars w with
    | nil => exact absurd hw (splitNLChars_ne_nil w)
    | cons h t => simp
  | cons c cx ih =>
    have hc : c ≠ '\n' := fun hh => hx (hh ▸ List.mem_cons_self c cx)
    have hcx : '\n' ∉ cx := fun hh => hx (List.mem_cons_of_mem c hh)
    rw [List.cons_append, splitNLChars_cons, ih hcx]
    simp [hc]

/-- The line splitter inverts the line joiner on newline-free lines. -/
theorem splitNLChars_joinNLChars (l : List (List Char)) (hne : l ≠ [])
    (h : ∀ x ∈ l, '\n' ∉ x) : splitNLChars (joinNLChars l) = l := by
  induction l with
  | nil => exact absurd rfl hne
  | cons x xs ih =>
    cases xs with
    | nil =>
      rw [joinNLChars]
      exact splitNLChars_no_newline x (h x (List.mem_cons_self x []))
    | cons y rest =>
      rw [joinNLChars, splitNLChars_append x _ (h x (List.mem_cons_self x (y :: rest)))]
      rw [ih (by simp) (fun z hz => h z (List.mem_cons_of_mem x hz))]

/-- Every 6-bit group maps into the base64url alphabet. -/
theorem b64CharOf_mem (n : Nat) : b64CharOf n ∈ b64Alphabet := by
  unfold b64CharOf
  by_cases h : n < b64Alphabet.length
  · rw [List.getD_eq_getElem b64Alphabet 'A' h]
    exact List.getElem_mem h
  · rw [List.getD_eq_default b64Alphabet 'A' (le_of_not_lt h)]
    decide

/-- Every character the base64url encoder emits is in the alphabet. -/
theorem b64EncodeBytes_mem (bs : List UInt8) :
    ∀ ch ∈ b64EncodeBytes bs, ch ∈ b64Alphabet := by
  induction bs using b64EncodeBytes.induct with
  | case1 => intro ch hch; simp [b64EncodeBytes] at hch
  | case2 a =>
    intro ch hch
    simp only [b64EncodeBytes, List.mem_cons, List.not_mem_nil, or_false] at hch
    rcases hch with h | h <;> exact h ▸ b64CharOf_mem _
  | case3 a b =>
    intro ch hch
    simp only [b64EncodeBytes, List.mem_cons, List.not_mem_nil, or_false] at hch
    rcases hch with h | h | h <;> exact h ▸ b64CharOf_mem _
  | case4 a b c rest ih =>
    intro ch hch
    simp only [b64EncodeBytes, List.mem_cons] at hch
    rcases hch with h | h | h | h | h
    · exact h ▸ b64CharOf_mem _
    · exact h ▸ b64CharOf_mem _
    · exact h ▸ b64CharOf_mem _
    · exact h ▸ b64CharOf_mem _
    · exact ih ch h

/-- The base64url encoding of a string contains no newline. -/
theorem b64url_no_newline (s : String) : '\n' ∉ (b64url s).data := by
  intro hmem
  have := b64EncodeBytes_mem (s.data.flatMap String.utf8EncodeChar) '\n' hmem
  revert this
  decide

/-- Text shape of any token the deterministic pipeline produces:
`base64url(header) . base64url(payload) . base64url(signature)`. -/
theorem encodeDeterministic_text (c : Claims) (kp : KeyPair) (env : Env)
    (tok : SignedToken) (h : encodeDeterministic c kp env = some tok) :
    ∃ p s, tok.text = b64url jsonHeader ++ "." ++ b64url p ++ "." ++ b64url s := by
  unfold encodeDeterministic libEncode at h
  by_cases hc : (validSubjectFor c.payload c.cd.subject && issuerAllowedFor c.payload kp.pub) = true
  · simp [hc] at h
    exact ⟨_, _, by rw [← h]⟩
  · simp [hc] at h

/-- No token text ever contains a newline: the three segments are base64url
and the separators are dots. -/
theorem encodeDeterministic_text_no_newline (c : Claims) (kp : KeyPair)
    (env : Env) (tok : SignedToken) (h : encodeDeterministic c kp env = some tok) :
    '\n' ∉ tok.text.data := by
  obtain ⟨p, s, htext⟩ := encodeDeterministic_text c kp env tok h
  rw [htext]
  intro hmem
  simp only [String.data_append, List.mem_append] at hmem
  rcases hmem with ((((hh | hd) | hp) | hd2) | hs)
  · exact b64url_no_newline jsonHeader hh
  · revert hd; decide
  · exact b64url_no_newline p hp
  · revert hd2; decide
  · exact b64url_no_newline s hs

/-- Concrete value of the encoded fixed header. -/
theorem b64url_jsonHeader_eq :
    b64url jsonHeader = "eyJhbGciOiJlZDI1NTE5LW5rZXkiLCJ0eXAiOiJKV1QifQ" := by decide

/-- A token text never equals the seed-block marker line: it starts with the
first base64url character of the fixed header, not with a dash. -/
theorem encodeDeterministic_text_ne_marker (c : Claims) (kp : KeyPair)
    (env : Env) (tok : SignedToken) (h : encodeDeterministic c kp env = some tok) :
    tok.text ≠ credsSeedMarker := by
  obtain ⟨p, s, htext⟩ := encodeDeterministic_text c kp env tok h
  intro heq
  have hd : tok.text.data = credsSeedMarker.data := by rw [heq]
  rw [htext, b64url_jsonHeader_eq] at hd
  have h2 : ("eyJhbGciOiJlZDI1NTE5LW5rZXkiLCJ0eXAiOiJKV1QifQ" : String).data =
      'e' :: ("yJhbGciOiJlZDI1NTE5LW5rZXkiLCJ0eXAiOiJKV1QifQ" : String).data := by decide
  have h3 : credsSeedMarker.data = '-' :: ("----BEGIN USER NKEY SEED-----" : String).data := by decide
  simp only [String.data_append, h2, h3, List.cons_append, List.cons.injEq] at hd
  exact absurd hd.1 (by decide)

/-- Creds parse inverts creds rendering: on a newline-free token and seed
(and a token that is not literally the seed marker line), extracting the
line after each begin marker recovers the token and the seed. -/
theorem renderCreds_roundtrip (t s : String) (ht : '\n' ∉ t.data)
    (hs : '\n' ∉ s.data) (htm : t ≠ credsSeedMarker) :
    parseDecoratedJWT (renderCreds t s) = some t ∧
    parseDecoratedSeed (renderCreds t s) = some s := by
  have hnl : ∀ x ∈ (credsLines t s).map String.data, '\n' ∉ x := by
    intro x hx
    rw [List.mem_map] at hx
    obtain ⟨y, hy, rfl⟩ := hx
    simp only [credsLines, List.mem_cons, List.not_mem_nil, or_false] at hy
    rcases hy with rfl | rfl | rfl | rfl | rfl | rfl | rfl | rfl
    · decide
    · exact ht
    · decide
    · decide
    · decide
    · exact hs
    · decide
    · decide
  have hcomp : (String.mk ∘ String.data) = (id : String → String) :=
    funext fun x => mk_data_eq x
  have hlines : strLines (renderCreds t s) = credsLines t s := by
    unfold strLines renderCreds
    rw [show (String.mk (joinNLChars ((credsLines t s).map String.data))).data = joinNLChars ((credsLines t s).map String.data) from rfl]
    rw [splitNLChars_joinNLChars _ (by simp [credsLines]) hnl]
    rw [List.map_map, hcomp, List.map_id]
  constructor
  · unfold parseDecoratedJWT
    rw [hlines]
    simp [credsLines, afterMarker]
  · unfold parseDecoratedSeed
    rw [hlines]
    simp [credsLines, afterMarker, htm,
      (by decide : credsJWTMarker ≠ credsSeedMarker),
      (by decide : ("------END NATS USER JWT------" : String) ≠ credsSeedMarker),
      (by decide : ("" : String) ≠ credsSeedMarker)]

/-- C2.  Creds round-trip: for every user token the build produces, the
decorated creds artifact parses back to the issued token text, and the
embedded seed is the user's own seed, whose derived public key (`pubOf`, the
pure seed-to-public-key function of the key-material invariant) equals the
token's subject. -/
theorem claim_C2_creds_roundtrip (pubOf : String → String)
    (pd : String → Option Int) (d : UserDataSourceModel) (ukp akp : KeyPair)
    (env : Env) (tok : SignedToken) (creds : String)
    (hpub : pubOf ukp.seed = ukp.pub)
    (hseed : '\n' ∉ ukp.seed.data)
    (h : userReadCreds pd d ukp akp env = some (tok, creds)) :
    parseDecoratedJWT creds = some tok.text ∧
    ∃ s, parseDecoratedSeed creds = some s ∧ pubOf s = tok.claims.cd.subject := by
  unfold userReadCreds at h
  cases hu : userRead pd d ukp akp env with
  | none => rw [hu] at h; simp at h
  | some tok0 =>
    rw [hu] at h
    simp only [Option.some.injEq, Prod.mk.injEq] at h
    obtain ⟨htok, hcreds⟩ := h
    subst htok
    subst hcreds
    unfold userRead at hu
    cases hb : buildUserClaims pd d ukp.pub with
    | none => rw [hb] at hu; simp at hu
    | some c0 =>
      rw [hb] at hu
      have hnl := encodeDeterministic_text_no_newline c0 akp env tok0 hu
      have hnm := encodeDeterministic_text_ne_marker c0 akp env tok0 hu
      have hsubj : tok0.claims.cd.subject = ukp.pub := by
        have hc := encodeDeterministic_claims c0 akp env tok0 hu
        have hcd := buildUserClaims_cd pd d ukp.pub c0 hb
        rw [hc]
        simp [encodedClaims, hcd]
      obtain ⟨hj, hsp⟩ := renderCreds_roundtrip tok0.text ukp.seed hnl hseed hnm
      exact ⟨hj, ukp.seed, hsp, by rw [hpub, hsubj]⟩

/-- Seed-to-public-key function of the witness key material. -/
def pubOfW : String → String := fun s => if s = "SUSEEDX" then "UPUBX" else ""

/-- Concrete token/creds pair of the minimal user build. -/
def credsPairW : SignedToken × String :=
  (userReadCreds pdW userDataMin kpUserW kpAccountW envW).getD (dummyToken, "")

/-- Witness for C2: the minimal user build produces a creds artifact that
parses back to the issued token and to a seed whose derived public key is
the token's subject. -/
theorem claim_C2_creds_roundtrip_witness :
    userReadCreds pdW userDataMin kpUserW kpAccountW envW = some credsPairW ∧
    parseDecoratedJWT credsPairW.2 = some credsPairW.1.text ∧
    ∃ s, parseDecoratedSeed credsPairW.2 = some s ∧ pubOfW s = credsPairW.1.claims.cd.subject := by
  refine ⟨rfl, ?_⟩
  exact claim_C2_creds_roundtrip pubOfW pdW userDataMin kpUserW kpAccountW envW
    credsPairW.1 credsPairW.2 (by decide) (by decide) rfl
